import Mathlib

/-!
Verification of the LLM-Route router layer (`routellm/routers/routers.py`)
against its natural-language specification.

The Python source is shallowly embedded below.  External collaborators
(pretrained classifiers, the OpenAI embedding provider, the similarity-weighted
Elo fitting utilities in `routellm.routers.similarity_weighted.utils`, pandas
and numpy file loading) are modelled as explicit function parameters; the code
of `routers.py` itself is translated definition by definition.  Python floats
are modelled as real numbers.
-/

open scoped BigOperators

/-! ## The routed model pair -/

/-- Modelled from the spec: `ROUTED_PAIR` comes from `routellm.model_pair`,
which is not part of the source under analysis.  The spec's `RoutingConfig`
gives it two fields, the strong and the weak model identifier. -/
structure ModelPair where
  strong : String
  weak : String

/-! ## `Router.route` (routers.py lines 36-40)

`route` compares the estimator's output to the threshold and returns the
strong side exactly when the win rate is at least the threshold.  The
estimator is the abstract method `calculate_strong_win_rate`, passed here as
a function parameter.  `routeInstr` is the same code with the estimator call
instrumented by a call counter threaded through the computation, so that the
"invokes the estimator exactly once" part of the contract is expressible. -/

noncomputable def Router.route (calculate_strong_win_rate : String → ℝ)
    (pair : ModelPair) (prompt : String) (threshold : ℝ) : String :=
  if calculate_strong_win_rate prompt ≥ threshold then
    pair.strong
  else
    pair.weak

/-- Instrument a pure estimator with a call counter: each invocation
increments the counter. -/
def instrument (f : String → ℝ) : String → ℕ → ℝ × ℕ :=
  fun prompt n => (f prompt, n + 1)

/-- `Router.route` with the estimator call counted: the body evaluates the
estimator once in the branch condition, exactly as the source does. -/
noncomputable def Router.routeInstr (est : String → ℕ → ℝ × ℕ)
    (pair : ModelPair) (prompt : String) (threshold : ℝ) (n : ℕ) : String × ℕ :=
  let r := est prompt n
  (if r.1 ≥ threshold then pair.strong else pair.weak, r.2)

/-! ## Parallel-safety flags (routers.py lines 21-28 and class decorators)

The base class `Router` carries the class attribute `NO_PARALLEL = False`;
the decorator `no_parallel` overwrites it with `True` on the class it is
applied to.  In the source the decorator is applied to `CausalLLMRouter`,
`BERTRouter`, `MatrixFactorizationRouter` and `RandomRouter`;
`SWRankingRouter` is not decorated and inherits the base value. -/

structure RouterClass where
  NO_PARALLEL : Bool

/-- Class attribute `NO_PARALLEL = False` of the abstract base `Router`. -/
def Router.baseClass : RouterClass :=
  { NO_PARALLEL := false }

/-- The `no_parallel` class decorator: sets `NO_PARALLEL = True`. -/
def no_parallel (cls : RouterClass) : RouterClass :=
  { cls with NO_PARALLEL := true }

def CausalLLMRouterCls : RouterClass := no_parallel Router.baseClass

def BERTRouterCls : RouterClass := no_parallel Router.baseClass

def SWRankingRouterCls : RouterClass := Router.baseClass

def MatrixFactorizationRouterCls : RouterClass := no_parallel Router.baseClass

def RandomRouterCls : RouterClass := no_parallel Router.baseClass

/-! ## `BERTRouter.calculate_strong_win_rate` (routers.py lines 94-107)

The classifier (model plus tokenizer) is opaque; it is modelled as a function
from the prompt to the 3-class logits vector (`num_labels = 3`).  The body:

    exp_scores = np.exp(logits - np.max(logits))
    softmax_scores = exp_scores / np.sum(exp_scores)
    binary_prob = np.sum(softmax_scores[-2:])
    return 1 - binary_prob
-/

/-- `np.max(logits)` over the 3-class logits vector. -/
noncomputable def np_max3 (logits : Fin 3 → ℝ) : ℝ :=
  max (logits 0) (max (logits 1) (logits 2))

/-- `exp_scores = np.exp(logits - np.max(logits))`. -/
noncomputable def exp_scores (logits : Fin 3 → ℝ) : Fin 3 → ℝ :=
  fun i => Real.exp (logits i - np_max3 logits)

/-- `softmax_scores = exp_scores / np.sum(exp_scores)`. -/
noncomputable def softmax_scores (logits : Fin 3 → ℝ) : Fin 3 → ℝ :=
  fun i => exp_scores logits i / ∑ j, exp_scores logits j

/-- `BERTRouter.calculate_strong_win_rate`: softmax of the classifier's
logits, then `1 -` the probability mass of the last two classes
(`softmax_scores[-2:]`, the comment in the source reads "label 1 and 2
(tie, tier 2 wins)"). -/
noncomputable def BERTRouter.calculate_strong_win_rate
    (classifier : String → Fin 3 → ℝ) (prompt : String) : ℝ :=
  let logits := classifier prompt
  let binary_prob := softmax_scores logits 1 + softmax_scores logits 2
  1 - binary_prob

/-- Instrument an opaque classifier with a call counter. -/
def instrumentClassifier (f : String → Fin 3 → ℝ) :
    String → ℕ → (Fin 3 → ℝ) × ℕ :=
  fun prompt n => (f prompt, n + 1)

/-- `BERTRouter.calculate_strong_win_rate` with the classifier call counted:
the body invokes the classifier once. -/
noncomputable def BERTRouter.calculate_strong_win_rate_instr
    (classifier : String → ℕ → (Fin 3 → ℝ) × ℕ) (prompt : String) (n : ℕ) :
    ℝ × ℕ :=
  let r := classifier prompt n
  (1 - (softmax_scores r.1 1 + softmax_scores r.1 2), r.2)

/-! ## `SWRankingRouter` (routers.py lines 110-181)

The battle dataset is a pandas data frame with participant columns `model_a`
and `model_b` plus an outcome column; its rows are modelled as `BattleRow`,
parameterized by the participant type because construction rewrites the
participant columns from model identifiers (strings) to tier indices.
The similarity-weighted utilities `compute_elo_mle_with_tie` and
`compute_tiers` live in `routellm.routers.similarity_weighted.utils`, outside
the source under analysis, and are taken as opaque function parameters, as
are the OpenAI embedding call and the pandas/numpy file loaders. -/

structure BattleRow (P : Type) where
  model_a : P
  model_b : P
  winner : String

/-- State of an `SWRankingRouter` instance after `__init__`. -/
structure SWRankingRouterState where
  strong_model : String
  weak_model : String
  arena_df : List (BattleRow ℕ)
  arena_conv_embedding : List (List ℝ)
  embedding_model : String
  model2tier : String → ℕ

/-- The relabelling applied at construction (routers.py lines 141-146): each
participant column of each row is rewritten through `model2tier`. -/
def relabelRow (model2tier : String → ℕ) (r : BattleRow String) : BattleRow ℕ :=
  { model_a := model2tier r.model_a
    model_b := model2tier r.model_b
    winner := r.winner }

/-- `SWRankingRouter.__init__` (routers.py lines 111-146).  `read_json path
lines` models `pd.read_json` (with its `lines` flag) and returns `none`
exactly when the file is missing (`FileNotFoundError`); `np_load` models
`np.load` the same way.  `compute_elo_mle_with_tie` and `compute_tiers` are
the opaque fitting utilities.  The result is the exception raised or the
constructed state. -/
def SWRankingRouter.init
    (read_json : String → Bool → Option (List (BattleRow String)))
    (np_load : String → Option (List (List ℝ)))
    (compute_elo_mle_with_tie : List (BattleRow String) → String → ℝ)
    (compute_tiers : (String → ℝ) → ℕ → String → ℕ)
    (strong_model weak_model arena_df_path arena_embedding_path : String)
    (num_tiers : ℕ) :
    Except String SWRankingRouterState :=
  match
    (if arena_df_path.endsWith (".json") then read_json arena_df_path false
     else read_json arena_df_path true) with
  | none =>
      .error ("Expected data file not found at path: " ++ arena_df_path)
  | some arena_df =>
      match np_load arena_embedding_path with
      | none =>
          .error ("Expected data file not found at path: " ++ arena_embedding_path)
      | some arena_conv_embedding =>
          let model_ratings := compute_elo_mle_with_tie arena_df
          let model2tier := compute_tiers model_ratings num_tiers
          .ok
            { strong_model := strong_model
              weak_model := weak_model
              arena_df := arena_df.map (relabelRow model2tier)
              arena_conv_embedding := arena_conv_embedding
              embedding_model := "text-embedding-3-small"
              model2tier := model2tier }

/-- `np.dot` of two vectors. -/
def np_dot (u v : List ℝ) : ℝ :=
  (List.zipWith (fun a b => a * b) u v).sum

/-- `np.linalg.norm` of a vector. -/
noncomputable def np_norm (v : List ℝ) : ℝ :=
  Real.sqrt ((v.map fun x => x * x).sum)

/-- The cosine similarities of routers.py lines 165-168: for each stored
row, `dot(row, prompt_emb) / (norm(row) * norm(prompt_emb))`. -/
noncomputable def cosineSimilarities (m : List (List ℝ)) (prompt_emb : List ℝ) :
    List ℝ :=
  m.map fun row => np_dot row prompt_emb / (np_norm row * np_norm prompt_emb)

/-- `np.max` over a similarity vector (a fold of binary `max`; the empty case
is a junk value, `np.max` raises there). -/
noncomputable def np_max : List ℝ → ℝ
  | [] => 0
  | x :: xs => xs.foldl max x

/-- `SWRankingRouter.get_weightings` (routers.py lines 148-150):
`10 * 10 ** (similarities / max_sim)`. -/
noncomputable def SWRankingRouter.get_weightings (similarities : List ℝ) :
    List ℝ :=
  let max_sim := np_max similarities
  similarities.map fun s => 10 * (10 : ℝ) ^ (s / max_sim)

/-- `SWRankingRouter.calculate_strong_win_rate` (routers.py lines 152-181).
`openai_embed` models the OpenAI embedding call, which may fail with an
error `e : E` that propagates; `compute_elo_mle_with_tie` is the weighted
refit, returning the ratings indexed by tier.  The state is threaded
explicitly: the method reads `self` and never assigns to it, so the state
is returned unchanged on both paths. -/
noncomputable def SWRankingRouter.calculate_strong_win_rate (E : Type)
    (openai_embed : String → Except E (List ℝ))
    (compute_elo_mle_with_tie : List (BattleRow ℕ) → List ℝ → ℕ → ℝ)
    (st : SWRankingRouterState) (prompt : String) :
    Except E ℝ × SWRankingRouterState :=
  match openai_embed prompt with
  | .error e => (.error e, st)
  | .ok prompt_emb =>
      let similarities := cosineSimilarities st.arena_conv_embedding prompt_emb
      let weightings := SWRankingRouter.get_weightings similarities
      let res := compute_elo_mle_with_tie st.arena_df weightings
      let weak_score := res (st.model2tier st.weak_model)
      let strong_score := res (st.model2tier st.strong_model)
      let weak_winrate := 1 / (1 + (10 : ℝ) ^ ((strong_score - weak_score) / 400))
      let strong_winrate := 1 - weak_winrate
      (.ok strong_winrate, st)

/-! ## Claim C1: threshold routing -/

/-- C1.  For every estimator, prompt and threshold, `Router.route` invokes
the estimator exactly once and returns the strong model identifier if and
only if the estimated win rate `w` satisfies `w ≥ threshold`; at the boundary
`w = threshold` it returns the strong side, and otherwise the weak side. -/
theorem C1_route_threshold (est : String → ℝ) (pair : ModelPair)
    (hpair : pair.strong ≠ pair.weak) (prompt : String) (threshold : ℝ) :
    (Router.routeInstr (instrument est) pair prompt threshold 0).2 = 1 ∧
    (Router.routeInstr (instrument est) pair prompt threshold 0).1 =
      Router.route est pair prompt threshold ∧
    (Router.route est pair prompt threshold = pair.strong ↔
      est prompt ≥ threshold) ∧
    (Router.route est pair prompt threshold = pair.weak ↔
      ¬ est prompt ≥ threshold) := by
  refine ⟨rfl, rfl, ?_, ?_⟩ <;>
    unfold Router.route <;>
    by_cases h : est prompt ≥ threshold <;>
    simp [h, hpair, hpair.symm]

/-- Witness for C1 at a concrete boundary input: win rate `1/2` against
threshold `1/2` routes to the strong side, with one estimator call. -/
theorem C1_route_threshold_witness :
    (Router.routeInstr (instrument fun _ => (1 : ℝ) / 2)
        ⟨"gpt-4", "mixtral"⟩ "p" ((1 : ℝ) / 2) 0).2 = 1 ∧
    (Router.routeInstr (instrument fun _ => (1 : ℝ) / 2)
        ⟨"gpt-4", "mixtral"⟩ "p" ((1 : ℝ) / 2) 0).1 =
      Router.route (fun _ => (1 : ℝ) / 2) ⟨"gpt-4", "mixtral"⟩ "p" ((1 : ℝ) / 2) ∧
    (Router.route (fun _ => (1 : ℝ) / 2) ⟨"gpt-4", "mixtral"⟩ "p" ((1 : ℝ) / 2) =
        "gpt-4" ↔ (fun _ : String => (1 : ℝ) / 2) "p" ≥ (1 : ℝ) / 2) ∧
    (Router.route (fun _ => (1 : ℝ) / 2) ⟨"gpt-4", "mixtral"⟩ "p" ((1 : ℝ) / 2) =
        "mixtral" ↔ ¬ (fun _ : String => (1 : ℝ) / 2) "p" ≥ (1 : ℝ) / 2) :=
  C1_route_threshold (fun _ => (1 : ℝ) / 2) ⟨"gpt-4", "mixtral"⟩
    (by decide) "p" ((1 : ℝ) / 2)

/-! ## Helper lemmas about the SW estimator -/

/-- Equation lemma: when the embedding call fails, the error propagates and
the state is returned unchanged. -/
theorem swcalc_eq_error (E : Type) (openai_embed : String → Except E (List ℝ))
    (fit : List (BattleRow ℕ) → List ℝ → ℕ → ℝ) (st : SWRankingRouterState)
    (prompt : String) (e : E) (hm : openai_embed prompt = .error e) :
    SWRankingRouter.calculate_strong_win_rate E openai_embed fit st prompt =
      (.error e, st) := by
  unfold SWRankingRouter.calculate_strong_win_rate
  rw [hm]

/-- Equation lemma: when the embedding call succeeds, the result is the Elo
win-probability formula applied to the refit ratings at the configured tiers,
and the state is returned unchanged. -/
theorem swcalc_eq_ok (E : Type) (openai_embed : String → Except E (List ℝ))
    (fit : List (BattleRow ℕ) → List ℝ → ℕ → ℝ) (st : SWRankingRouterState)
    (prompt : String) (prompt_emb : List ℝ)
    (hm : openai_embed prompt = .ok prompt_emb) :
    SWRankingRouter.calculate_strong_win_rate E openai_embed fit st prompt =
      (.ok (1 - 1 / (1 + (10 : ℝ) ^
        ((fit st.arena_df
            (SWRankingRouter.get_weightings
              (cosineSimilarities st.arena_conv_embedding prompt_emb))
            (st.model2tier st.strong_model) -
          fit st.arena_df
            (SWRankingRouter.get_weightings
              (cosineSimilarities st.arena_conv_embedding prompt_emb))
            (st.model2tier st.weak_model)) / 400))), st) := by
  unfold SWRankingRouter.calculate_strong_win_rate
  rw [hm]

/-- The Elo win-probability formula always lands strictly inside the unit
interval. -/
theorem strong_winrate_bounds (x : ℝ) :
    0 ≤ 1 - 1 / (1 + (10 : ℝ) ^ x) ∧ 1 - 1 / (1 + (10 : ℝ) ^ x) ≤ 1 := by
  have hp : 0 < (10 : ℝ) ^ x := Real.rpow_pos_of_pos (by norm_num) x
  have h1 : 0 < 1 + (10 : ℝ) ^ x := by linarith
  have ha : 0 ≤ 1 / (1 + (10 : ℝ) ^ x) := by positivity
  have hb : 1 / (1 + (10 : ℝ) ^ x) ≤ 1 := by
    rw [div_le_one h1]
    linarith
  constructor <;> linarith

/-! ## Claim C5: parallel-safety capability flags -/

/-- C5 counterexample.  The claim says the classifier-style and
matrix-factorization estimators are parallel-safe (`NO_PARALLEL = false`);
in the source all three carry the `no_parallel` decorator, so their
`NO_PARALLEL` flag is `true`. -/
theorem C5_counterexample :
    BERTRouterCls.NO_PARALLEL = true ∧
    CausalLLMRouterCls.NO_PARALLEL = true ∧
    MatrixFactorizationRouterCls.NO_PARALLEL = true := by
  exact ⟨rfl, rfl, rfl⟩

/-- C5 amended.  Each router class carries a static `NO_PARALLEL` flag; it is
`true` for the random baseline and also for the `causal_llm`, `bert` and
`matrix_factorization` routers (all four are decorated with `no_parallel`),
and `false` only for the SW ranking router, which inherits the base class
default.  The decorator always sets the flag, and the base default is
`false`. -/
theorem C5_amended_flags :
    RandomRouterCls.NO_PARALLEL = true ∧
    CausalLLMRouterCls.NO_PARALLEL = true ∧
    BERTRouterCls.NO_PARALLEL = true ∧
    MatrixFactorizationRouterCls.NO_PARALLEL = true ∧
    SWRankingRouterCls.NO_PARALLEL = false ∧
    Router.baseClass.NO_PARALLEL = false ∧
    (∀ cls : RouterClass, (no_parallel cls).NO_PARALLEL = true) := by
  exact ⟨rfl, rfl, rfl, rfl, rfl, rfl, fun _ => rfl⟩

/-! ## Claim C2: win rates lie in the unit interval -/

/-- C2.  For every prompt, the win rate returned by
`calculate_strong_win_rate` lies in `[0,1]`: for `BERTRouter`, one minus the
sum of two softmax probabilities is in `[0,1]` because the softmax is a
probability vector; for `SWRankingRouter`, every successfully returned value
`1 - 1/(1 + 10^x)` is in `[0,1]` for every real rating gap `x`. -/
theorem C2_win_rate_in_unit_interval :
    (∀ (classifier : String → Fin 3 → ℝ) (prompt : String),
      0 ≤ BERTRouter.calculate_strong_win_rate classifier prompt ∧
      BERTRouter.calculate_strong_win_rate classifier prompt ≤ 1) ∧
    (∀ (E : Type) (openai_embed : String → Except E (List ℝ))
      (fit : List (BattleRow ℕ) → List ℝ → ℕ → ℝ)
      (st : SWRankingRouterState) (prompt : String) (v : ℝ),
      (SWRankingRouter.calculate_strong_win_rate E openai_embed fit st
          prompt).1 = .ok v →
      0 ≤ v ∧ v ≤ 1) := by
  constructor
  · intro classifier prompt
    have hS : 0 < ∑ j, exp_scores (classifier prompt) j :=
      Finset.sum_pos (fun j _ => Real.exp_pos _) Finset.univ_nonempty
    have h1 : 0 ≤ softmax_scores (classifier prompt) 1 :=
      div_nonneg (Real.exp_pos _).le hS.le
    have h2 : 0 ≤ softmax_scores (classifier prompt) 2 :=
      div_nonneg (Real.exp_pos _).le hS.le
    have hsum : softmax_scores (classifier prompt) 1 +
        softmax_scores (classifier prompt) 2 =
        (exp_scores (classifier prompt) 1 + exp_scores (classifier prompt) 2) /
          ∑ j, exp_scores (classifier prompt) j := by
      unfold softmax_scores
      exact div_add_div_same _ _ _
    have hle : exp_scores (classifier prompt) 1 +
        exp_scores (classifier prompt) 2 ≤
        ∑ j, exp_scores (classifier prompt) j := by
      rw [Fin.sum_univ_three]
      have h0 : 0 < exp_scores (classifier prompt) 0 := Real.exp_pos _
      linarith
    have hbp : softmax_scores (classifier prompt) 1 +
        softmax_scores (classifier prompt) 2 ≤ 1 := by
      rw [hsum]
      exact (div_le_one hS).mpr hle
    constructor
    · show 0 ≤ 1 - (softmax_scores (classifier prompt) 1 +
        softmax_scores (classifier prompt) 2)
      linarith
    · show 1 - (softmax_scores (classifier prompt) 1 +
        softmax_scores (classifier prompt) 2) ≤ 1
      linarith
  · intro E openai_embed fit st prompt v h
    cases hm : openai_embed prompt with
    | error e =>
        rw [swcalc_eq_error E openai_embed fit st prompt e hm] at h
        exact absurd h (by simp)
    | ok prompt_emb =>
        rw [swcalc_eq_ok E openai_embed fit st prompt prompt_emb hm] at h
        have hv := Except.ok.inj h
        rw [← hv]
        exact strong_winrate_bounds _

/-- Concrete collaborators used to witness the SW-router claims: an
embedding call that always succeeds with the empty vector, a refit that
returns rating zero for every tier, and a freshly constructed state. -/
def okEmbed : String → Except Unit (List ℝ) := fun _ => .ok []

def constFit : List (BattleRow ℕ) → List ℝ → ℕ → ℝ := fun _ _ _ => 0

def trivialState : SWRankingRouterState :=
  { strong_model := "s"
    weak_model := "w"
    arena_df := []
    arena_conv_embedding := []
    embedding_model := "text-embedding-3-small"
    model2tier := fun _ => 0 }

/-- Witness for C2 at concrete inputs: the all-zero-logits classifier, and
an SW call whose refit returns equal ratings, so the returned value is
`1 - 1/(1 + 10^0) = 1/2`. -/
theorem C2_win_rate_in_unit_interval_witness :
    (0 ≤ BERTRouter.calculate_strong_win_rate (fun _ _ => 0) ("p") ∧
      BERTRouter.calculate_strong_win_rate (fun _ _ => 0) ("p") ≤ 1) ∧
    (0 ≤ 1 - 1 / (1 + (10 : ℝ) ^ (((0 : ℝ) - 0) / 400)) ∧
      1 - 1 / (1 + (10 : ℝ) ^ (((0 : ℝ) - 0) / 400)) ≤ 1) :=
  ⟨C2_win_rate_in_unit_interval.1 (fun _ _ => 0) ("p"),
   C2_win_rate_in_unit_interval.2 Unit okEmbed constFit trivialState ("p")
     (1 - 1 / (1 + (10 : ℝ) ^ (((0 : ℝ) - 0) / 400))) rfl⟩

/-! ## Claim C4: the SW estimator's win-probability formula -/

/-- C4.  For every prompt whose embedding call succeeds, the SW estimator
returns `1 - weakWinRate` where
`weakWinRate = 1 / (1 + 10^((strongRating - weakRating)/400))`, with
`strongRating` and `weakRating` read from the re-fitted ratings (the refit
over the tier-relabelled dataset with the similarity weightings) at the
tiers assigned to the configured strong and weak models. -/
theorem C4_sw_win_rate_formula (E : Type)
    (openai_embed : String → Except E (List ℝ))
    (fit : List (BattleRow ℕ) → List ℝ → ℕ → ℝ)
    (st : SWRankingRouterState) (prompt : String) (prompt_emb : List ℝ)
    (hm : openai_embed prompt = .ok prompt_emb) :
    (SWRankingRouter.calculate_strong_win_rate E openai_embed fit st
        prompt).1 =
      .ok (1 - 1 / (1 + (10 : ℝ) ^
        ((fit st.arena_df
            (SWRankingRouter.get_weightings
              (cosineSimilarities st.arena_conv_embedding prompt_emb))
            (st.model2tier st.strong_model) -
          fit st.arena_df
            (SWRankingRouter.get_weightings
              (cosineSimilarities st.arena_conv_embedding prompt_emb))
            (st.model2tier st.weak_model)) / 400))) := by
  rw [swcalc_eq_ok E openai_embed fit st prompt prompt_emb hm]

/-- Witness for C4 at concrete inputs. -/
theorem C4_sw_win_rate_formula_witness :
    (SWRankingRouter.calculate_strong_win_rate Unit okEmbed constFit
        trivialState ("p")).1 =
      .ok (1 - 1 / (1 + (10 : ℝ) ^
        ((constFit trivialState.arena_df
            (SWRankingRouter.get_weightings
              (cosineSimilarities trivialState.arena_conv_embedding []))
            (trivialState.model2tier trivialState.strong_model) -
          constFit trivialState.arena_df
            (SWRankingRouter.get_weightings
              (cosineSimilarities trivialState.arena_conv_embedding []))
            (trivialState.model2tier trivialState.weak_model)) / 400))) :=
  C4_sw_win_rate_formula Unit okEmbed constFit trivialState ("p") [] rfl

/-! ## Claim C7: the BERT estimator's output -/

/-- C7.  For every prompt, the 3-class sequence-classification estimator
invokes the classifier exactly once and returns `1 - P(weak preferred)`,
where `P(weak preferred)` is the sum of the softmax probabilities of the two
last classes of the classifier's 3-class output (the source comment calls
them "label 1 and 2 (tie, tier 2 wins)"), each softmax probability being the
max-shifted exponential normalised by the total. -/
theorem C7_bert_classifier_once (classifier : String → Fin 3 → ℝ)
    (prompt : String) :
    (BERTRouter.calculate_strong_win_rate_instr
        (instrumentClassifier classifier) prompt 0).2 = 1 ∧
    (BERTRouter.calculate_strong_win_rate_instr
        (instrumentClassifier classifier) prompt 0).1 =
      BERTRouter.calculate_strong_win_rate classifier prompt ∧
    BERTRouter.calculate_strong_win_rate classifier prompt =
      1 - (softmax_scores (classifier prompt) 1 +
        softmax_scores (classifier prompt) 2) ∧
    (∀ i, softmax_scores (classifier prompt) i =
      Real.exp (classifier prompt i - np_max3 (classifier prompt)) /
        ∑ j, Real.exp (classifier prompt j - np_max3 (classifier prompt))) :=
  ⟨rfl, rfl, rfl, fun _ => rfl⟩

/-! ## Claim C3: shape of the similarity weightings -/

/-- C3 counterexample.  The claim asserts monotonicity for every non-empty
similarity vector, but when the maximal similarity is negative the division
by `max(similarities)` reverses the order: for `s = [-1, -1/2]` (both valid
cosine similarities) the weight of the smaller similarity is `1000` and the
weight of the larger one is `100`. -/
theorem C3_counterexample :
    ((-1 : ℝ) ≤ -1/2) ∧
    SWRankingRouter.get_weightings [-1, -1/2] = [1000, 100] ∧
    ¬ ((1000 : ℝ) ≤ 100) := by
  refine ⟨by norm_num, ?_, by norm_num⟩
  have hmax : np_max [(-1 : ℝ), -1/2] = -1/2 := by
    show max (-1 : ℝ) (-1/2) = -1/2
    exact max_eq_right (by norm_num)
  have key : SWRankingRouter.get_weightings [(-1 : ℝ), -1/2] =
      [10 * (10 : ℝ) ^ ((-1 : ℝ) / np_max [(-1 : ℝ), -1/2]),
       10 * (10 : ℝ) ^ ((-1/2 : ℝ) / np_max [(-1 : ℝ), -1/2])] := rfl
  have d1 : (-1 : ℝ) / (-1/2 : ℝ) = 2 := by norm_num
  have d2 : (-1/2 : ℝ) / (-1/2 : ℝ) = 1 := by norm_num
  have r2 : (10 : ℝ) ^ (2 : ℝ) = 100 := by
    rw [show (2 : ℝ) = ((2 : ℕ) : ℝ) by norm_num, Real.rpow_natCast]
    norm_num
  rw [key, hmax, d1, d2, Real.rpow_one, r2]
  norm_num

/-- C3 amended.  For every non-empty similarity vector `s` whose maximal
entry is positive, `get_weightings` computes
`weight(x) = 10 * 10^(x / max(s))` pointwise, all weights are strictly
positive, and the weights are monotonically non-decreasing in similarity.
(The counterexample above shows monotonicity fails when `max(s) < 0`, so the
positivity of the maximum is required.) -/
theorem C3_amended_weightings (s : List ℝ) (_hs : s ≠ [])
    (hmax : 0 < np_max s) :
    SWRankingRouter.get_weightings s =
      s.map (fun x => 10 * (10 : ℝ) ^ (x / np_max s)) ∧
    (∀ w ∈ SWRankingRouter.get_weightings s, 0 < w) ∧
    (∀ i j : ℕ, i < s.length → j < s.length →
      s.getD i 0 ≤ s.getD j 0 →
      (SWRankingRouter.get_weightings s).getD i 0 ≤
        (SWRankingRouter.get_weightings s).getD j 0) := by
  refine ⟨rfl, ?_, ?_⟩
  · intro w hw
    have hw' : w ∈ s.map (fun x => 10 * (10 : ℝ) ^ (x / np_max s)) := hw
    obtain ⟨x, _, rfl⟩ := List.mem_map.mp hw'
    positivity
  · intro i j hi hj hij
    have hi' : i < (SWRankingRouter.get_weightings s).length := by
      show i < (s.map (fun x => 10 * (10 : ℝ) ^ (x / np_max s))).length
      rw [List.length_map]
      exact hi
    have hj' : j < (SWRankingRouter.get_weightings s).length := by
      show j < (s.map (fun x => 10 * (10 : ℝ) ^ (x / np_max s))).length
      rw [List.length_map]
      exact hj
    rw [List.getD_eq_get _ _ hi', List.getD_eq_get _ _ hj']
    rw [List.getD_eq_get _ _ hi, List.getD_eq_get _ _ hj] at hij
    have e1 : (SWRankingRouter.get_weightings s).get ⟨i, hi'⟩ =
        10 * (10 : ℝ) ^ (s.get ⟨i, hi⟩ / np_max s) := by
      show (s.map (fun x => 10 * (10 : ℝ) ^ (x / np_max s))).get ⟨i, hi'⟩ = _
      simp [List.get_eq_getElem, List.getElem_map]
    have e2 : (SWRankingRouter.get_weightings s).get ⟨j, hj'⟩ =
        10 * (10 : ℝ) ^ (s.get ⟨j, hj⟩ / np_max s) := by
      show (s.map (fun x => 10 * (10 : ℝ) ^ (x / np_max s))).get ⟨j, hj'⟩ = _
      simp [List.get_eq_getElem, List.getElem_map]
    rw [e1, e2]
    have hdiv : s.get ⟨i, hi⟩ / np_max s ≤ s.get ⟨j, hj⟩ / np_max s :=
      (div_le_div_iff_of_pos_right hmax).mpr hij
    have hr : (10 : ℝ) ^ (s.get ⟨i, hi⟩ / np_max s) ≤
        (10 : ℝ) ^ (s.get ⟨j, hj⟩ / np_max s) :=
      (Real.rpow_le_rpow_left_iff (by norm_num)).mpr hdiv
    linarith

/-- Witness for the amended C3 at `s = [1, 2]`: the weight at index 0 is at
most the weight at index 1. -/
theorem C3_amended_weightings_witness :
    (SWRankingRouter.get_weightings [1, 2]).getD 0 0 ≤
      (SWRankingRouter.get_weightings [1, 2]).getD 1 0 :=
  (C3_amended_weightings [1, 2] (by simp)
      (by
        show (0 : ℝ) < max 1 2
        norm_num)).2.2 0 1 (by norm_num) (by norm_num)
    (by norm_num [List.getD])

/-! ## Claim C10: positivity guarantee needs a nonzero maximum -/

/-- C10.  The division by `max(similarities)` inside `get_weightings` is
unguarded, so the guarantee of finite strictly positive weights is stated
only under the precondition that the maximum is nonzero; under that
precondition every weight `10 * 10^(x / max)` is strictly positive (and, the
weights being real numbers of the model, finite). -/
theorem C10_weights_positive_of_max_ne_zero (s : List ℝ) (_hs : s ≠ [])
    (_hm : np_max s ≠ 0) :
    ∀ w ∈ SWRankingRouter.get_weightings s, 0 < w := by
  intro w hw
  have hw' : w ∈ s.map (fun x => 10 * (10 : ℝ) ^ (x / np_max s)) := hw
  obtain ⟨x, _, rfl⟩ := List.mem_map.mp hw'
  positivity

/-- Witness for C10 at `s = [3, 4]`: the first weight is strictly
positive. -/
theorem C10_weights_positive_witness :
    0 < (SWRankingRouter.get_weightings [3, 4]).getD 0 0 := by
  have hlen : 0 < (SWRankingRouter.get_weightings [(3 : ℝ), 4]).length := by
    show 0 < ((([3, 4] : List ℝ)).map
      (fun x => 10 * (10 : ℝ) ^ (x / np_max [3, 4]))).length
    simp
  rw [List.getD_eq_getElem _ _ hlen]
  exact C10_weights_positive_of_max_ne_zero [3, 4] (by simp)
    (by
      show max (3 : ℝ) 4 ≠ 0
      norm_num) _ (List.getElem_mem hlen)

/-! ## Claim C6: fatal file-not-found errors at SW construction -/

/-- C6.  Construction of the SW ranking estimator raises the fatal
file-not-found error if and only if the battle dataset file or the embedding
matrix file is missing, with the error naming the missing path; when both
files are present, construction loads the dataset (with `lines=False`, i.e.
as a JSON array, exactly when the path ends in `".json"`, and otherwise with
`lines=True`, i.e. as newline-delimited JSON), loads the embedding matrix,
and builds the state. -/
theorem C6_init_file_not_found
    (read_json : String → Bool → Option (List (BattleRow String)))
    (np_load : String → Option (List (List ℝ)))
    (fit0 : List (BattleRow String) → String → ℝ)
    (tiers : (String → ℝ) → ℕ → String → ℕ)
    (sm wm dfp ep : String) (nt : ℕ) :
    ((if dfp.endsWith (".json") then read_json dfp false
      else read_json dfp true) = none →
      SWRankingRouter.init read_json np_load fit0 tiers sm wm dfp ep nt =
        .error ("Expected data file not found at path: " ++ dfp)) ∧
    (∀ df, (if dfp.endsWith (".json") then read_json dfp false
        else read_json dfp true) = some df →
      np_load ep = none →
      SWRankingRouter.init read_json np_load fit0 tiers sm wm dfp ep nt =
        .error ("Expected data file not found at path: " ++ ep)) ∧
    (∀ df emb, (if dfp.endsWith (".json") then read_json dfp false
        else read_json dfp true) = some df →
      np_load ep = some emb →
      SWRankingRouter.init read_json np_load fit0 tiers sm wm dfp ep nt =
        .ok { strong_model := sm
              weak_model := wm
              arena_df := df.map (relabelRow (tiers (fit0 df) nt))
              arena_conv_embedding := emb
              embedding_model := "text-embedding-3-small"
              model2tier := tiers (fit0 df) nt }) ∧
    ((∃ msg, SWRankingRouter.init read_json np_load fit0 tiers sm wm dfp ep nt
        = .error msg) ↔
      (if dfp.endsWith (".json") then read_json dfp false
       else read_json dfp true) = none ∨ np_load ep = none) := by
  refine ⟨?_, ?_, ?_, ?_⟩
  · intro h
    unfold SWRankingRouter.init
    rw [h]
  · intro df h1 h2
    unfold SWRankingRouter.init
    rw [h1, h2]
  · intro df emb h1 h2
    unfold SWRankingRouter.init
    rw [h1, h2]
  · constructor
    · rintro ⟨msg, hmsg⟩
      by_contra hc
      push_neg at hc
      obtain ⟨h1, h2⟩ := hc
      obtain ⟨df, hdf⟩ : ∃ df, (if dfp.endsWith (".json") then
          read_json dfp false else read_json dfp true) = some df := by
        cases hL : (if dfp.endsWith (".json") then read_json dfp false
            else read_json dfp true) with
        | none => exact absurd hL h1
        | some df => exact ⟨df, rfl⟩
      obtain ⟨emb, hemb⟩ : ∃ emb, np_load ep = some emb := by
        cases hE : np_load ep with
        | none => exact absurd hE h2
        | some emb => exact ⟨emb, rfl⟩
      have hok : SWRankingRouter.init read_json np_load fit0 tiers sm wm dfp
          ep nt = .ok { strong_model := sm
                        weak_model := wm
                        arena_df := df.map (relabelRow (tiers (fit0 df) nt))
                        arena_conv_embedding := emb
                        embedding_model := "text-embedding-3-small"
                        model2tier := tiers (fit0 df) nt } := by
        unfold SWRankingRouter.init
        rw [hdf, hemb]
      rw [hok] at hmsg
      exact Except.noConfusion hmsg
    · intro h
      cases hL : (if dfp.endsWith (".json") then read_json dfp false
          else read_json dfp true) with
      | none =>
          exact ⟨"Expected data file not found at path: " ++ dfp, by
            unfold SWRankingRouter.init
            rw [hL]⟩
      | some df =>
          cases hE : np_load ep with
          | none =>
              exact ⟨"Expected data file not found at path: " ++ ep, by
                unfold SWRankingRouter.init
                rw [hL, hE]⟩
          | some emb =>
              rcases h with h | h
              · rw [hL] at h
                exact absurd h (by simp)
              · rw [hE] at h
                exact absurd h (by simp)

/-- Concrete collaborators used to witness the construction claims: loaders
that always find an empty dataset and an empty embedding matrix, the
all-zero baseline fit, and a tier map sending every model to tier 0. -/
def wRead : String → Bool → Option (List (BattleRow String)) := fun _ _ => some []

def wLoad : String → Option (List (List ℝ)) := fun _ => some []

def wFit0 : List (BattleRow String) → String → ℝ := fun _ _ => 0

def wTiers : (String → ℝ) → ℕ → String → ℕ := fun _ _ _ => 0

/-- Witness for C6: with both files present, construction succeeds and
builds the relabelled state. -/
theorem C6_init_file_not_found_witness :
    SWRankingRouter.init wRead wLoad wFit0 wTiers ("s") ("w") ("d.json")
        ("e.npy") 10 =
      .ok { strong_model := "s"
            weak_model := "w"
            arena_df := List.map (relabelRow (wTiers (wFit0 []) 10)) []
            arena_conv_embedding := []
            embedding_model := "text-embedding-3-small"
            model2tier := wTiers (wFit0 []) 10 } :=
  (C6_init_file_not_found wRead wLoad wFit0 wTiers ("s") ("w") ("d.json")
      ("e.npy") 10).2.2.1 [] []
    (by
      show (if ("d.json").endsWith (".json") then
          some ([] : List (BattleRow String)) else some []) = some []
      exact ite_self _)
    rfl

/-! ## Claim C8: construction-time relabelling, per-call frame -/

/-- C8.  The battle dataset is relabelled from model identifiers to tier
identifiers exactly once, at construction: a successful `init` stores
exactly the loaded dataset mapped once through the tier assignment, and
stores that tier assignment.  Every call to `calculate_strong_win_rate` —
whether it returns a value or propagates the embedding-provider error —
returns the instance state (dataset, embedding matrix and tier map included)
unchanged. -/
theorem C8_sw_state_frame :
    (∀ (read_json : String → Bool → Option (List (BattleRow String)))
       (np_load : String → Option (List (List ℝ)))
       (fit0 : List (BattleRow String) → String → ℝ)
       (tiers : (String → ℝ) → ℕ → String → ℕ)
       (sm wm dfp ep : String) (nt : ℕ)
       (df : List (BattleRow String)) (st : SWRankingRouterState),
       (if dfp.endsWith (".json") then read_json dfp false
        else read_json dfp true) = some df →
       SWRankingRouter.init read_json np_load fit0 tiers sm wm dfp ep nt =
         .ok st →
       st.arena_df = df.map (relabelRow (tiers (fit0 df) nt)) ∧
       st.model2tier = tiers (fit0 df) nt) ∧
    (∀ (E : Type) (openai_embed : String → Except E (List ℝ))
       (fit : List (BattleRow ℕ) → List ℝ → ℕ → ℝ)
       (st : SWRankingRouterState) (prompt : String),
       (SWRankingRouter.calculate_strong_win_rate E openai_embed fit st
           prompt).2 = st) := by
  constructor
  · intro read_json np_load fit0 tiers sm wm dfp ep nt df st h1 h2
    unfold SWRankingRouter.init at h2
    rw [h1] at h2
    cases hE : np_load ep with
    | none =>
        rw [hE] at h2
        exact Except.noConfusion h2
    | some emb =>
        rw [hE] at h2
        have hst := Except.ok.inj h2
        rw [← hst]
        exact ⟨rfl, rfl⟩
  · intro E openai_embed fit st prompt
    cases hm : openai_embed prompt with
    | error e =>
        rw [swcalc_eq_error E openai_embed fit st prompt e hm]
    | ok prompt_emb =>
        rw [swcalc_eq_ok E openai_embed fit st prompt prompt_emb hm]

/-- The state built by the witness construction. -/
def wState : SWRankingRouterState :=
  { strong_model := "s"
    weak_model := "w"
    arena_df := []
    arena_conv_embedding := []
    embedding_model := "text-embedding-3-small"
    model2tier := wTiers (wFit0 []) 10 }

/-- Witness for C8 at concrete inputs: the witness construction stores the
once-relabelled (empty) dataset, and a call on the resulting state leaves it
unchanged. -/
theorem C8_sw_state_frame_witness :
    (wState.arena_df = List.map (relabelRow (wTiers (wFit0 []) 10)) [] ∧
      wState.model2tier = wTiers (wFit0 []) 10) ∧
    (SWRankingRouter.calculate_strong_win_rate Unit okEmbed constFit wState
        ("p")).2 = wState :=
  ⟨C8_sw_state_frame.1 wRead wLoad wFit0 wTiers ("s") ("w") ("d.json")
      ("e.npy") 10 [] wState
      (by
        show (if ("d.json").endsWith (".json") then
            some ([] : List (BattleRow String)) else some []) = some []
        exact ite_self _)
      (by
        unfold SWRankingRouter.init
        rw [show (if ("d.json").endsWith (".json") then
            wRead ("d.json") false else wRead ("d.json") true) = some [] from
          ite_self _]
        rfl),
   C8_sw_state_frame.2 Unit okEmbed constFit wState ("p")⟩

/-! ## Claim C9: the random baseline ignores the prompt -/

/-- `random.uniform(a, b)` of CPython: `a + (b - a) * random()`, where
`random()` draws from the shared generator state.  The generator is
modelled as an explicit state-passing function `rand`. -/
noncomputable def uniform (σ : Type) (rand : σ → ℝ × σ) (a b : ℝ) (s : σ) : ℝ × σ :=
  let r := rand s
  (a + (b - a) * r.1, r.2)

/-- `RandomRouter.calculate_strong_win_rate` (routers.py lines 204-209):
`del prompt; return random.uniform(0, 1)`. -/
noncomputable def RandomRouter.calculate_strong_win_rate (σ : Type) (rand : σ → ℝ × σ)
    (prompt : String) (s : σ) : ℝ × σ :=
  uniform σ rand 0 1 s

/-- C9.  `RandomRouter`'s output is independent of the prompt: for any two
prompts and the same generator state the call returns the same value and
successor state; and whenever the underlying `random()` draws in `[0, 1)`
(as CPython's does), the returned value lies in `[0, 1]`. -/
theorem C9_random_prompt_independent (σ : Type) (rand : σ → ℝ × σ)
    (hrand : ∀ s, 0 ≤ (rand s).1 ∧ (rand s).1 < 1) :
    (∀ p1 p2 s, RandomRouter.calculate_strong_win_rate σ rand p1 s =
        RandomRouter.calculate_strong_win_rate σ rand p2 s) ∧
    (∀ p s, 0 ≤ (RandomRouter.calculate_strong_win_rate σ rand p s).1 ∧
        (RandomRouter.calculate_strong_win_rate σ rand p s).1 ≤ 1) := by
  constructor
  · intro p1 p2 s
    rfl
  · intro p s
    obtain ⟨h0, h1⟩ := hrand s
    constructor
    · show 0 ≤ 0 + (1 - 0) * (rand s).1
      linarith
    · show 0 + (1 - 0) * (rand s).1 ≤ 1
      linarith

/-- A concrete generator for the C9 witness: always draws `1/2`. -/
noncomputable def wRand : Unit → ℝ × Unit := fun u => (1 / 2, u)

/-- Witness for C9: two different prompts, same state, same output, and the
output is in `[0, 1]`. -/
theorem C9_random_prompt_independent_witness :
    RandomRouter.calculate_strong_win_rate Unit wRand ("a") () =
      RandomRouter.calculate_strong_win_rate Unit wRand ("b") () ∧
    (0 ≤ (RandomRouter.calculate_strong_win_rate Unit wRand ("a") ()).1 ∧
      (RandomRouter.calculate_strong_win_rate Unit wRand ("a") ()).1 ≤ 1) :=
  ⟨(C9_random_prompt_independent Unit wRand
      (fun _ => by norm_num [wRand])).1 ("a") ("b") (),
   (C9_random_prompt_independent Unit wRand
      (fun _ => by norm_num [wRand])).2 ("a") ()⟩
